import Mathlib

/-!
Shallow embedding of the scoring and ranking subsystem of the FrozenBet API
(`src/services/invitation.service.ts`: `calculatePoints`,
`calculatePointsForMatch`, `updateGroupRankings`), together with theorems
settling the specification claims about it.

Database rows (Prisma models `Match`, `Prediction`, `GroupScoringRule`,
`GroupMember`, `GroupRanking`) are modelled as structures; the database is an
explicit state record and the service methods are state-passing functions.
JavaScript `x || d` on numbers is modelled by `jsOr` (0 is falsy), and
`String.prototype.includes` by `containsSub` on character lists
(case-sensitive substring containment, as in JavaScript).
-/

namespace FrozenBet

/-- `leadsWith key hay`: `key` is an initial segment of `hay`. -/
def leadsWith : List Char → List Char → Bool
  | [], _ => true
  | _ :: _, [] => false
  | a :: as2, b :: bs => a = b && leadsWith as2 bs

/-- `containsSub key hay`: `key` occurs as a contiguous substring of `hay`,
the semantics of JavaScript `hay.includes(key)` (case-sensitive). -/
def containsSub (key : List Char) : List Char → Bool
  | [] => leadsWith key []
  | c :: t => leadsWith key (c :: t) || containsSub key t

/-- JavaScript `x || d` for an optional number: `undefined`, `null` and `0`
are falsy and yield the default `d`. Models `rule?.points || default`. -/
def jsOr (x : Option Int) (d : Int) : Int :=
  match x with
  | none => d
  | some v => if v = 0 then d else v

/-- Row of `group_scoring_rules`: `rule_description TEXT` (nullable),
`points INTEGER NOT NULL`. -/
structure ScoringRule where
  groupId : Nat
  ruleDescription : Option String
  points : Int
deriving DecidableEq, Repr

/-- `r.ruleDescription?.includes(key)`: false when the description is null. -/
def descMatches (r : ScoringRule) (key : String) : Bool :=
  match r.ruleDescription with
  | none => false
  | some d => containsSub key.data d.data

/-- `rules.find(r => r.ruleDescription?.includes(key))`. -/
def findRule (rules : List ScoringRule) (key : String) : Option ScoringRule :=
  rules.find? (fun r => descMatches r key)

/-- Point value used in the exact-score branch:
`rules.find(r => r.ruleDescription?.includes('Exact score'))?.points || 5`. -/
def exactScoreValue (rules : List ScoringRule) : Int :=
  jsOr ((findRule rules "Exact score").map (fun r => r.points)) 5

/-- Point value used in the correct-draw branch (default 3). -/
def correctDrawValue (rules : List ScoringRule) : Int :=
  jsOr ((findRule rules "Correct draw").map (fun r => r.points)) 3

/-- Point value used in the correct-winner branch (default 3). -/
def correctWinnerValue (rules : List ScoringRule) : Int :=
  jsOr ((findRule rules "Correct winner").map (fun r => r.points)) 3

/-- Outcome classification used by `calculatePoints`:
`home > away ? 'home' : home < away ? 'away' : 'draw'`. -/
def outcomeClass (home away : Int) : String :=
  if home > away then "home" else if home < away then "away" else "draw"

/-- The scoring engine `calculatePoints` of `invitation.service.ts`. -/
def calculatePoints (predictedHome predictedAway actualHome actualAway : Int)
    (rules : List ScoringRule) : Int :=
  if predictedHome = actualHome ∧ predictedAway = actualAway then
    exactScoreValue rules
  else
    let predictedResult := outcomeClass predictedHome predictedAway
    let actualResult := outcomeClass actualHome actualAway
    if predictedResult = actualResult then
      if actualResult = "draw" then correctDrawValue rules
      else correctWinnerValue rules
    else 0

/-- The three seed rules every group starts with. -/
def defaultRules : List ScoringRule :=
  [⟨1, some "Exact score", 5⟩, ⟨1, some "Correct winner", 3⟩,
   ⟨1, some "Correct draw", 3⟩]

/-- Row of `matches`: `status TEXT`, `home_score`/`away_score` nullable. -/
structure Match where
  id : Nat
  status : String
  homeScore : Option Int
  awayScore : Option Int
deriving DecidableEq, Repr

/-- Row of `predictions`; `points_earned INTEGER` nullable, unset until
scored. -/
structure Prediction where
  id : Nat
  userId : Nat
  matchId : Nat
  groupId : Nat
  homeScorePrediction : Int
  awayScorePrediction : Int
  pointsEarned : Option Int
deriving DecidableEq, Repr

/-- Row of `group_members` (only the fields the scoring path touches). -/
structure GroupMember where
  groupId : Nat
  userId : Nat
  totalPoints : Int
deriving DecidableEq, Repr

/-- Row of `group_rankings`: `rank` and `previous_rank` are nullable
(`INTEGER`, no default), the three totals default to 0. -/
structure GroupRanking where
  id : Nat
  groupId : Nat
  userId : Nat
  totalPoints : Int
  totalPredictions : Int
  correctPredictions : Int
  rank : Option Nat
  previousRank : Option Nat
deriving DecidableEq, Repr

/-- The database state seen by the scoring path, with a counter supplying
fresh autoincrement ids for `group_rankings` rows. -/
structure DB where
  matchRows : List Match
  predictions : List Prediction
  scoringRules : List ScoringRule
  members : List GroupMember
  rankings : List GroupRanking
  nextRankingId : Nat
deriving DecidableEq, Repr

/-- Service error thrown as `new AppError(status, code, message)`. -/
structure AppError where
  status : Nat
  code : String
  message : String
deriving DecidableEq, Repr

/-- `prisma.groupRanking.findFirst({ where: { groupId, userId } })`. -/
def rankingFor (d : DB) (groupId userId : Nat) : Option GroupRanking :=
  d.rankings.find? (fun r => r.groupId = groupId ∧ r.userId = userId)

/-- `prisma.prediction.update({ where: { id }, data: { pointsEarned } })`. -/
def setPointsEarned (d : DB) (p : Prediction) (points : Int) : DB :=
  { d with
    predictions := d.predictions.map (fun q =>
      if q.id = p.id then { q with pointsEarned := some points } else q) }

/-- `prisma.groupMember.updateMany` incrementing `totalPoints` for the
`(groupId, userId)` pair of the prediction. -/
def incrementMemberPoints (d : DB) (p : Prediction) (points : Int) : DB :=
  { d with
    members := d.members.map (fun mem =>
      if mem.groupId = p.groupId ∧ mem.userId = p.userId then
        { mem with totalPoints := mem.totalPoints + points }
      else mem) }

/-- The `group_rankings` upsert: update the existing `(groupId, userId)` row
(incrementing `totalPoints` by `points`, `totalPredictions` by 1, and
`correctPredictions` by 1 exactly when `points > 0`), or create a fresh row
whose `rank` and `previousRank` are unset. -/
def upsertRanking (d : DB) (p : Prediction) (points : Int) : DB :=
  match rankingFor d p.groupId p.userId with
  | some r =>
      { d with
        rankings := d.rankings.map (fun q =>
          if q.id = r.id then
            { q with
              totalPoints := q.totalPoints + points,
              totalPredictions := q.totalPredictions + 1,
              correctPredictions :=
                if 0 < points then q.correctPredictions + 1
                else q.correctPredictions }
          else q) }
  | none =>
      { d with
        rankings := d.rankings ++
          [{ id := d.nextRankingId, groupId := p.groupId, userId := p.userId,
             totalPoints := points, totalPredictions := 1,
             correctPredictions := if 0 < points then 1 else 0,
             rank := none, previousRank := none }],
        nextRankingId := d.nextRankingId + 1 }

/-- One iteration of the scoring loop of `calculatePointsForMatch`: compute
the points of one prediction, persist `pointsEarned`, increment the member
aggregate, and upsert the `group_rankings` row. -/
def scorePrediction (d : DB) (p : Prediction) (rules : List ScoringRule)
    (actualHome actualAway : Int) : DB :=
  let points := calculatePoints p.homeScorePrediction p.awayScorePrediction
    actualHome actualAway rules
  upsertRanking (incrementMemberPoints (setPointsEarned d p points) p points)
    p points

/-- `[...new Set(xs)]`: first occurrences, in encounter order. -/
def dedupFirst (seen : List Nat) : List Nat → List Nat
  | [] => []
  | x :: xs =>
      if seen.contains x then dedupFirst seen xs
      else x :: dedupFirst (x :: seen) xs

/-- Insert into a list kept in decreasing `totalPoints` order (stable). -/
def insertDesc (r : GroupRanking) : List GroupRanking → List GroupRanking
  | [] => [r]
  | x :: xs =>
      if x.totalPoints < r.totalPoints then r :: x :: xs
      else x :: insertDesc r xs

/-- `orderBy: { totalPoints: 'desc' }`. -/
def sortByPointsDesc : List GroupRanking → List GroupRanking
  | [] => []
  | x :: xs => insertDesc x (sortByPointsDesc xs)

/-- Rank values written by the loop of `updateGroupRankings`, computed from
the fetched rows' totals. `prev` carries `rankings[i-1].totalPoints`, `i` the
0-based loop index and `cur` the running `currentRank` (initially 1): a row
whose total equals the previous row's total receives `currentRank`,
otherwise `currentRank` is reset to `i + 1`. -/
def assignRanksFrom (prev : Int) (i cur : Nat) : List Int → List Nat
  | [] => []
  | x :: xs =>
      if 0 < i ∧ prev = x then cur :: assignRanksFrom x (i + 1) cur xs
      else (i + 1) :: assignRanksFrom x (i + 1) (i + 1) xs

/-- The rank sequence assigned to a list of totals (fetched in descending
order) by `updateGroupRankings`. -/
def assignRanks (rs : List Int) : List Nat :=
  assignRanksFrom 0 0 1 rs

/-- `updateGroupRankings(groupId)`: fetch the group's ranking rows ordered by
`totalPoints` descending, then write each row's new `rank` and store the
row's previous `rank` value into `previousRank`. -/
def updateGroupRankings (d : DB) (groupId : Nat) : DB :=
  let rows := sortByPointsDesc (d.rankings.filter (fun r => r.groupId = groupId))
  let rks := assignRanks (rows.map (fun r => r.totalPoints))
  (rows.zip rks).foldl
    (fun acc pr =>
      { acc with
        rankings := acc.rankings.map (fun q =>
          if q.id = pr.1.id then
            { q with rank := some pr.2, previousRank := pr.1.rank }
          else q) })
    d

/-- `calculatePointsForMatch(matchId)`: precondition checks, the scoring
loop over all predictions of the match (each with its group's rule set), and
the rank recomputation for every distinct group touched. -/
def calculatePointsForMatch (d : DB) (matchId : Nat) :
    Except AppError (DB × String) :=
  match d.matchRows.find? (fun m => m.id = matchId) with
  | none => Except.error ⟨400, "BAD_REQUEST", "Match is not finished"⟩
  | some m =>
      if m.status ≠ "finished" then
        Except.error ⟨400, "BAD_REQUEST", "Match is not finished"⟩
      else
        match m.homeScore, m.awayScore with
        | some hs, some aw =>
            let preds := d.predictions.filter (fun p => p.matchId = matchId)
            let fetched := preds.map (fun p =>
              (p, d.scoringRules.filter (fun r => r.groupId = p.groupId)))
            let d1 := fetched.foldl
              (fun acc pr => scorePrediction acc pr.1 pr.2 hs aw) d
            let groups := dedupFirst [] (preds.map (fun p => p.groupId))
            let d2 := groups.foldl (fun acc g => updateGroupRankings acc g) d1
            Except.ok (d2, "Points calculated successfully")
        | _, _ =>
            Except.error ⟨400, "BAD_REQUEST", "Match scores are not set"⟩

/-- The database after a call of `calculatePointsForMatch`: a thrown
precondition error happens before any write, so the state is unchanged. -/
def runFinalize (d : DB) (matchId : Nat) : DB :=
  match calculatePointsForMatch d matchId with
  | Except.ok r => r.1
  | Except.error _ => d

/-- The success payload of a call, if any. -/
def finalizeMsg (d : DB) (matchId : Nat) : Option String :=
  match calculatePointsForMatch d matchId with
  | Except.ok r => some r.2
  | Except.error _ => none

/-- Whether a call of `calculatePointsForMatch` succeeds. -/
def finalizeOk (d : DB) (matchId : Nat) : Bool :=
  match calculatePointsForMatch d matchId with
  | Except.ok _ => true
  | Except.error _ => false

/-- Number of predictions the scoring loop processes for a match. -/
def scoredCount (d : DB) (matchId : Nat) : Nat :=
  (d.predictions.filter (fun p => p.matchId = matchId)).length

/-- Member running totals, in row order. -/
def memberTotals (d : DB) : List Int :=
  d.members.map (fun m => m.totalPoints)

/-- Ranking-row `totalPoints`, in row order. -/
def rankTotals (d : DB) : List Int :=
  d.rankings.map (fun r => r.totalPoints)

/-- Ranking-row `totalPredictions`, in row order. -/
def rankPredCounts (d : DB) : List Int :=
  d.rankings.map (fun r => r.totalPredictions)

/-- Ranking-row `correctPredictions`, in row order. -/
def rankCorrectCounts (d : DB) : List Int :=
  d.rankings.map (fun r => r.correctPredictions)

/-- Ranking-row `rank`, in row order. -/
def rankValues (d : DB) : List (Option Nat) :=
  d.rankings.map (fun r => r.rank)

/-- Ranking-row `previousRank`, in row order. -/
def rankPrevValues (d : DB) : List (Option Nat) :=
  d.rankings.map (fun r => r.previousRank)

/-- `pointsEarned` of every prediction, in row order. -/
def predictionPoints (d : DB) : List (Option Int) :=
  d.predictions.map (fun p => p.pointsEarned)

/-- A finished 1–0 match with one exact prediction by user 1 in group 1 and
an empty rule set: the prediction is worth the default 5 points. -/
def dbOnePrediction : DB :=
  { matchRows := [⟨1, "finished", some 1, some 0⟩],
    predictions := [⟨1, 1, 1, 1, 1, 0, none⟩],
    scoringRules := [],
    members := [⟨1, 1, 0⟩],
    rankings := [],
    nextRankingId := 1 }

/-- Same match, with a second (non-exact, wrong-class) prediction by user 2. -/
def dbTwoPredictions : DB :=
  { matchRows := [⟨1, "finished", some 1, some 0⟩],
    predictions := [⟨1, 1, 1, 1, 1, 0, none⟩, ⟨2, 2, 1, 1, 0, 1, none⟩],
    scoringRules := [],
    members := [⟨1, 1, 0⟩, ⟨1, 2, 0⟩],
    rankings := [],
    nextRankingId := 1 }

/-- Two finished matches (1–0 and 2–2) with one prediction each by user 1 in
group 1: an exact prediction worth 5 and a correct-draw prediction worth 3. -/
def dbTwoMatches : DB :=
  { matchRows := [⟨1, "finished", some 1, some 0⟩, ⟨2, "finished", some 2, some 2⟩],
    predictions := [⟨1, 1, 1, 1, 1, 0, none⟩, ⟨2, 1, 2, 1, 1, 1, none⟩],
    scoringRules := [],
    members := [⟨1, 1, 0⟩],
    rankings := [],
    nextRankingId := 1 }

/-- Three ranking rows in group 1 with totals 10, 10, 7. -/
def dbThreeRankings : DB :=
  { matchRows := [], predictions := [], scoringRules := [], members := [],
    rankings := [⟨1, 1, 1, 10, 2, 2, none, none⟩,
                 ⟨2, 1, 2, 10, 2, 2, none, none⟩,
                 ⟨3, 1, 3, 7, 2, 1, none, none⟩],
    nextRankingId := 4 }

/-- Four ranking rows in group 1 with totals 10, 10, 7, 7. -/
def dbFourRankings : DB :=
  { matchRows := [], predictions := [], scoringRules := [], members := [],
    rankings := [⟨1, 1, 1, 10, 2, 2, none, none⟩,
                 ⟨2, 1, 2, 10, 2, 2, none, none⟩,
                 ⟨3, 1, 3, 7, 2, 1, none, none⟩,
                 ⟨4, 1, 4, 7, 2, 1, none, none⟩],
    nextRankingId := 5 }

/-- A match that is still live, with no scores set. -/
def dbLiveMatch : DB :=
  { matchRows := [⟨1, "live", none, none⟩],
    predictions := [⟨1, 1, 1, 1, 1, 0, none⟩],
    scoringRules := [],
    members := [⟨1, 1, 0⟩],
    rankings := [],
    nextRankingId := 1 }

/-! ## Helper lemmas -/

theorem jsOr_ne_zero (x : Option Int) (d : Int) (hd : d ≠ 0) : jsOr x d ≠ 0 := by
  cases x with
  | none => simpa [jsOr] using hd
  | some v =>
    by_cases hv : v = 0
    · simpa [jsOr, hv] using hd
    · simp [jsOr, hv]

theorem jsOr_nonneg (x : Option Int) (d : Int) (hd : 0 ≤ d)
    (hx : ∀ v, x = some v → 0 ≤ v) : 0 ≤ jsOr x d := by
  cases x with
  | none => simpa [jsOr] using hd
  | some v =>
    by_cases hv : v = 0
    · simpa [jsOr, hv] using hd
    · simpa [jsOr, hv] using hx v rfl

theorem findRule_eq_none (rules : List ScoringRule) (key : String)
    (h : ∀ r ∈ rules, descMatches r key = false) :
    findRule rules key = none := by
  apply List.find?_eq_none.mpr
  intro r hr
  simp [h r hr]

/-! ## Claim theorems: scoring engine -/

/-- C1: `calculatePoints` follows the four-step algorithm exactly: an exact
score match returns the exact-score rule value (default 5) and nothing else;
otherwise a matching outcome class returns the correct-draw value (default 3)
when the actual class is a draw and the correct-winner value (default 3)
otherwise; every remaining case returns 0. Concretely, with the seed rules,
`calculatePoints 1 1 3 3 = 3`, `calculatePoints 3 1 2 0 = 3`,
`calculatePoints 2 1 1 2 = 0`, and with an empty rule list
`calculatePoints 2 0 2 0 [] = 5`. -/
theorem calculatePoints_four_step_algorithm :
    (∀ (ph pa ah aw : Int) (rules : List ScoringRule),
        ph = ah → pa = aw →
        calculatePoints ph pa ah aw rules = exactScoreValue rules)
    ∧ (∀ (ph pa ah aw : Int) (rules : List ScoringRule),
        ¬(ph = ah ∧ pa = aw) →
        outcomeClass ph pa = outcomeClass ah aw →
        calculatePoints ph pa ah aw rules =
          if outcomeClass ah aw = "draw" then correctDrawValue rules
          else correctWinnerValue rules)
    ∧ (∀ (ph pa ah aw : Int) (rules : List ScoringRule),
        ¬(ph = ah ∧ pa = aw) →
        outcomeClass ph pa ≠ outcomeClass ah aw →
        calculatePoints ph pa ah aw rules = 0)
    ∧ calculatePoints 1 1 3 3 defaultRules = 3
    ∧ calculatePoints 3 1 2 0 defaultRules = 3
    ∧ calculatePoints 2 1 1 2 defaultRules = 0
    ∧ calculatePoints 2 0 2 0 [] = 5 := by
  refine ⟨?_, ?_, ?_, by decide, by decide, by decide, by decide⟩
  · intro ph pa ah aw rules h1 h2
    simp [calculatePoints, h1, h2]
  · intro ph pa ah aw rules hne hcls
    simp [calculatePoints, hne, hcls]
  · intro ph pa ah aw rules hne hcls
    simp [calculatePoints, hne, hcls]

/-- Witness for C1: the general clauses applied at concrete scores. -/
theorem calculatePoints_four_step_algorithm_witness :
    calculatePoints 2 0 2 0 defaultRules = exactScoreValue defaultRules
    ∧ calculatePoints 1 1 3 3 defaultRules =
        (if outcomeClass 3 3 = "draw" then correctDrawValue defaultRules
         else correctWinnerValue defaultRules)
    ∧ calculatePoints 2 1 1 2 defaultRules = 0 :=
  ⟨calculatePoints_four_step_algorithm.1 2 0 2 0 defaultRules rfl rfl,
   calculatePoints_four_step_algorithm.2.1 1 1 3 3 defaultRules
     (by decide) (by decide),
   calculatePoints_four_step_algorithm.2.2.1 2 1 1 2 defaultRules
     (by decide) (by decide)⟩

/-- C6 counterexample: rule lookup is NOT case-insensitive. A rule whose
description is `"EXACT SCORE"` (10 points) is not found for an exact
prediction; the default 5 is awarded instead of 10. -/
theorem ruleLookup_not_case_insensitive :
    calculatePoints 1 0 1 0 [⟨1, some "EXACT SCORE", 10⟩] = 5
    ∧ calculatePoints 1 0 1 0 [⟨1, some "EXACT SCORE", 10⟩] ≠ 10 := by
  decide

/-- C6 amended: rule lookup is a case-sensitive substring match of the
rule's description against the exact keyword (`"Exact score"`,
`"Correct winner"`, `"Correct draw"`); only when no description contains the
keyword with that exact casing is the default used. A description such as
`"my Exact score bonus"` is found, while `"exact score bonus"` or
`"CORRECT DRAW"` is not. -/
theorem ruleLookup_case_sensitive_substring :
    (∀ (ph pa : Int) (rules : List ScoringRule),
        (∀ r ∈ rules, descMatches r "Exact score" = false) →
        calculatePoints ph pa ph pa rules = 5)
    ∧ calculatePoints 1 0 1 0 [⟨1, some "my Exact score bonus", 10⟩] = 10
    ∧ calculatePoints 1 0 1 0 [⟨1, some "exact score bonus", 10⟩] = 5
    ∧ calculatePoints 0 0 1 1 [⟨1, some "CORRECT DRAW", 7⟩] = 3 := by
  refine ⟨?_, by decide, by decide, by decide⟩
  intro ph pa rules h
  have hf : findRule rules "Exact score" = none := findRule_eq_none _ _ h
  simp [calculatePoints, exactScoreValue, hf, jsOr]

/-- Witness for C6 (amended): an empty rule list has no matching
description, so an exact prediction earns the default 5. -/
theorem ruleLookup_case_sensitive_substring_witness :
    calculatePoints 2 2 2 2 ([] : List ScoringRule) = 5 :=
  ruleLookup_case_sensitive_substring.1 2 2 ([] : List ScoringRule)
    (by intro r hr; cases hr)

/-- C8 counterexample: the result of `calculatePoints` can be negative. A
rule `"Exact score"` worth −2 points makes an exact prediction score −2,
because negative numbers are truthy in `rule?.points || 5`. -/
theorem calculatePoints_can_be_negative :
    calculatePoints 1 0 1 0 [⟨1, some "Exact score", -2⟩] = -2
    ∧ ¬(0 ≤ calculatePoints 1 0 1 0 [⟨1, some "Exact score", -2⟩]) := by
  decide

/-- C8 amended: `calculatePoints` is total over integer inputs (it is a total
function of this embedding), and its result is non-negative whenever every
rule's point value is non-negative — in particular for the seed rules and
for rule lists with arbitrary descriptions but non-negative points. -/
theorem calculatePoints_nonneg_of_rules_nonneg :
    ∀ (ph pa ah aw : Int) (rules : List ScoringRule),
      (∀ r ∈ rules, 0 ≤ r.points) →
      0 ≤ calculatePoints ph pa ah aw rules := by
  intro ph pa ah aw rules h
  have key : ∀ (k : String) (dflt : Int), 0 ≤ dflt →
      0 ≤ jsOr ((findRule rules k).map (fun r => r.points)) dflt := by
    intro k dflt hd
    apply jsOr_nonneg _ _ hd
    intro v hv
    cases hf : findRule rules k with
    | none => rw [hf] at hv; cases hv
    | some r =>
      rw [hf] at hv
      have hr : r ∈ rules := List.mem_of_find?_eq_some hf
      have := h r hr
      simp only [Option.map_some'] at hv
      cases hv
      exact this
  unfold calculatePoints exactScoreValue correctDrawValue correctWinnerValue
  split
  · exact key "Exact score" 5 (by norm_num)
  · dsimp only
    split
    · split
      · exact key "Correct draw" 3 (by norm_num)
      · exact key "Correct winner" 3 (by norm_num)
    · exact le_refl 0

/-- Witness for C8 (amended): non-negativity at a concrete input whose rule
list (the seed rules) has non-negative point values. -/
theorem calculatePoints_nonneg_witness :
    0 ≤ calculatePoints 1 1 2 2 defaultRules :=
  calculatePoints_nonneg_of_rules_nonneg 1 1 2 2 defaultRules (by decide)

/-- C9: a rule whose description matches a category but whose point value is
0 is treated as missing — the category default (5 for exact score, 3 for
correct winner/draw) is awarded, because `rule?.points || default` treats 0
as falsy; consequently a matched category never awards 0 points, whatever
the rules say. -/
theorem zero_point_rule_falls_back_to_default :
    (∀ (ph pa : Int) (rules : List ScoringRule) (r : ScoringRule),
        findRule rules "Exact score" = some r → r.points = 0 →
        calculatePoints ph pa ph pa rules = 5)
    ∧ (∀ (ph pa ah aw : Int) (rules : List ScoringRule) (r : ScoringRule),
        ¬(ph = ah ∧ pa = aw) →
        outcomeClass ph pa = outcomeClass ah aw → outcomeClass ah aw = "draw" →
        findRule rules "Correct draw" = some r → r.points = 0 →
        calculatePoints ph pa ah aw rules = 3)
    ∧ (∀ (ph pa ah aw : Int) (rules : List ScoringRule) (r : ScoringRule),
        ¬(ph = ah ∧ pa = aw) →
        outcomeClass ph pa = outcomeClass ah aw → outcomeClass ah aw ≠ "draw" →
        findRule rules "Correct winner" = some r → r.points = 0 →
        calculatePoints ph pa ah aw rules = 3)
    ∧ (∀ (ph pa : Int) (rules : List ScoringRule),
        calculatePoints ph pa ph pa rules ≠ 0)
    ∧ calculatePoints 1 0 1 0 [⟨1, some "Exact score", 0⟩] = 5 := by
  refine ⟨?_, ?_, ?_, ?_, by decide⟩
  · intro ph pa rules r hf h0
    simp [calculatePoints, exactScoreValue, hf, jsOr, h0]
  · intro ph pa ah aw rules r hne hcls hdraw hf h0
    simp [calculatePoints, hne, hcls, hdraw, correctDrawValue, hf, jsOr, h0]
  · intro ph pa ah aw rules r hne hcls hdraw hf h0
    simp [calculatePoints, hne, hcls, hdraw, correctWinnerValue, hf, jsOr, h0]
  · intro ph pa rules
    have : calculatePoints ph pa ph pa rules = exactScoreValue rules := by
      simp [calculatePoints]
    rw [this]
    exact jsOr_ne_zero _ 5 (by norm_num)

/-- Witness for C9: a zero-point `"Exact score"` rule yields the default 5
for an exact prediction. -/
theorem zero_point_rule_witness :
    calculatePoints 3 2 3 2 [⟨1, some "Exact score", 0⟩] = 5 :=
  zero_point_rule_falls_back_to_default.1 3 2 [⟨1, some "Exact score", 0⟩]
    ⟨1, some "Exact score", 0⟩ (by decide) rfl

/-! ## Rank-assignment lemmas -/

theorem assignRanksFrom_cons (prev : Int) (i cur : Nat) (x : Int)
    (xs : List Int) :
    ∃ v, assignRanksFrom prev i cur (x :: xs)
      = v :: assignRanksFrom x (i + 1) v xs := by
  by_cases h : 0 < i ∧ prev = x
  · exact ⟨cur, by simp [assignRanksFrom, h]⟩
  · exact ⟨i + 1, by simp [assignRanksFrom, h]⟩

theorem assignRanksFrom_tie :
    ∀ (k : Nat) (xs : List Int) (prev : Int) (i cur : Nat) (a : Int),
      xs[k]? = some a → xs[k + 1]? = some a →
      (assignRanksFrom prev i cur xs)[k + 1]?
        = (assignRanksFrom prev i cur xs)[k]? := by
  intro k
  induction k with
  | zero =>
    intro xs prev i cur a h0 h1
    match xs with
    | [] => simp at h0
    | [x] => simp at h1
    | x :: y :: t =>
      have hx : x = a := by simpa using h0
      have hy : y = a := by simpa using h1
      obtain ⟨v, hv⟩ := assignRanksFrom_cons prev i cur x (y :: t)
      rw [hv]
      have hcond : 0 < i + 1 ∧ x = y := ⟨Nat.succ_pos i, by rw [hx, hy]⟩
      simp [assignRanksFrom, hcond]
  | succ k ih =>
    intro xs prev i cur a h0 h1
    match xs with
    | [] => simp at h0
    | x :: t =>
      obtain ⟨v, hv⟩ := assignRanksFrom_cons prev i cur x t
      rw [hv]
      simp only [List.getElem?_cons_succ]
      exact ih t x (i + 1) v a (by simpa using h0) (by simpa using h1)

theorem assignRanksFrom_advance :
    ∀ (k : Nat) (xs : List Int) (prev : Int) (i cur : Nat) (a b : Int),
      xs[k]? = some a → xs[k + 1]? = some b → a ≠ b →
      (assignRanksFrom prev i cur xs)[k + 1]? = some (i + k + 2) := by
  intro k
  induction k with
  | zero =>
    intro xs prev i cur a b h0 h1 hne
    match xs with
    | [] => simp at h0
    | [x] => simp at h1
    | x :: y :: t =>
      have hx : x = a := by simpa using h0
      have hy : y = b := by simpa using h1
      obtain ⟨v, hv⟩ := assignRanksFrom_cons prev i cur x (y :: t)
      rw [hv]
      have hxy : ¬(x = y) := by
        intro hxy
        exact hne (by rw [← hx, ← hy, hxy])
      simp [assignRanksFrom, hxy]
  | succ k ih =>
    intro xs prev i cur a b h0 h1 hne
    match xs with
    | [] => simp at h0
    | x :: t =>
      obtain ⟨v, hv⟩ := assignRanksFrom_cons prev i cur x t
      rw [hv]
      simp only [List.getElem?_cons_succ]
      rw [show i + (k + 1) + 2 = (i + 1) + k + 2 by omega]
      exact ih t x (i + 1) v a b (by simpa using h0) (by simpa using h1) hne

theorem assignRanks_head (rs : List Int) (h : 0 < rs.length) :
    (assignRanks rs)[0]? = some 1 := by
  match rs with
  | [] => simp at h
  | x :: xs =>
    have hcond : ¬(0 < 0 ∧ (0 : Int) = x) := by simp
    simp [assignRanks, assignRanksFrom, hcond]

/-- C3: after rank recomputation the rows (fetched in descending
`totalPoints` order) receive standard competition ranks: the first row gets
rank 1, a row whose total equals the previous row's total shares that row's
rank, and a row whose total is strictly lower than the previous row's total
gets its 1-based position. Concretely, totals `[10, 10, 7]` yield ranks
`[1, 1, 3]` and `[10, 10, 7, 7]` yield `[1, 1, 3, 3]`, also end-to-end
through `updateGroupRankings` on ranking rows with those totals. -/
theorem updateGroupRankings_standard_competition_ranks :
    (∀ (rs : List Int), 0 < rs.length → (assignRanks rs)[0]? = some 1)
    ∧ (∀ (rs : List Int) (k : Nat) (a : Int),
        rs[k]? = some a → rs[k + 1]? = some a →
        (assignRanks rs)[k + 1]? = (assignRanks rs)[k]?)
    ∧ (∀ (rs : List Int) (k : Nat) (a b : Int),
        rs[k]? = some a → rs[k + 1]? = some b → b < a →
        (assignRanks rs)[k + 1]? = some (k + 2))
    ∧ assignRanks [10, 10, 7] = [1, 1, 3]
    ∧ assignRanks [10, 10, 7, 7] = [1, 1, 3, 3]
    ∧ rankValues (updateGroupRankings dbThreeRankings 1)
        = [some 1, some 1, some 3]
    ∧ rankValues (updateGroupRankings dbFourRankings 1)
        = [some 1, some 1, some 3, some 3] := by
  refine ⟨assignRanks_head, ?_, ?_, by decide, by decide, by decide, by decide⟩
  · intro rs k a h0 h1
    exact assignRanksFrom_tie k rs 0 0 1 a h0 h1
  · intro rs k a b h0 h1 hlt
    have := assignRanksFrom_advance k rs 0 0 1 a b h0 h1 (by
      intro hab
      exact absurd hlt (by rw [hab]; exact lt_irrefl b))
    simpa using this

/-- Witness for C3: the general clauses applied to the totals `[10, 10, 7]`. -/
theorem standard_competition_ranks_witness :
    (assignRanks [10, 10, 7])[0]? = some 1
    ∧ (assignRanks [10, 10, 7])[1]? = (assignRanks [10, 10, 7])[0]?
    ∧ (assignRanks [10, 10, 7])[2]? = some 3 :=
  ⟨updateGroupRankings_standard_competition_ranks.1 [10, 10, 7] (by decide),
   updateGroupRankings_standard_competition_ranks.2.1 [10, 10, 7] 0 10
     (by decide) (by decide),
   updateGroupRankings_standard_competition_ranks.2.2.1 [10, 10, 7] 1 10 7
     (by decide) (by decide) (by decide)⟩

/-! ## Scoring-loop lemmas -/

theorem upsertRanking_members (d : DB) (p : Prediction) (points : Int) :
    (upsertRanking d p points).members = d.members := by
  unfold upsertRanking
  cases rankingFor d p.groupId p.userId <;> rfl

theorem scorePrediction_members (d : DB) (p : Prediction)
    (rules : List ScoringRule) (hs aw : Int) :
    (scorePrediction d p rules hs aw).members
      = d.members.map (fun mem =>
          if mem.groupId = p.groupId ∧ mem.userId = p.userId then
            { mem with
              totalPoints := mem.totalPoints + calculatePoints
                p.homeScorePrediction p.awayScorePrediction hs aw rules }
          else mem) := by
  unfold scorePrediction
  rw [upsertRanking_members]
  rfl

theorem scorePrediction_rankings_create (d : DB) (p : Prediction)
    (rules : List ScoringRule) (hs aw : Int)
    (h : rankingFor d p.groupId p.userId = none) :
    (scorePrediction d p rules hs aw).rankings
      = d.rankings ++
          [{ id := d.nextRankingId, groupId := p.groupId, userId := p.userId,
             totalPoints := calculatePoints p.homeScorePrediction
               p.awayScorePrediction hs aw rules,
             totalPredictions := 1,
             correctPredictions :=
               if 0 < calculatePoints p.homeScorePrediction
                   p.awayScorePrediction hs aw rules then 1 else 0,
             rank := none, previousRank := none }] := by
  unfold scorePrediction upsertRanking
  have h2 : rankingFor
      (incrementMemberPoints (setPointsEarned d p (calculatePoints
        p.homeScorePrediction p.awayScorePrediction hs aw rules)) p
        (calculatePoints p.homeScorePrediction p.awayScorePrediction hs aw
          rules))
      p.groupId p.userId = none := h
  dsimp only
  rw [h2]
  rfl

theorem scorePrediction_rankings_update (d : DB) (p : Prediction)
    (rules : List ScoringRule) (hs aw : Int) (r : GroupRanking)
    (h : rankingFor d p.groupId p.userId = some r) :
    (scorePrediction d p rules hs aw).rankings
      = d.rankings.map (fun q =>
          if q.id = r.id then
            { q with
              totalPoints := q.totalPoints + calculatePoints
                p.homeScorePrediction p.awayScorePrediction hs aw rules,
              totalPredictions := q.totalPredictions + 1,
              correctPredictions :=
                if 0 < calculatePoints p.homeScorePrediction
                    p.awayScorePrediction hs aw rules then
                  q.correctPredictions + 1
                else q.correctPredictions }
          else q) := by
  unfold scorePrediction upsertRanking
  have h2 : rankingFor
      (incrementMemberPoints (setPointsEarned d p (calculatePoints
        p.homeScorePrediction p.awayScorePrediction hs aw rules)) p
        (calculatePoints p.homeScorePrediction p.awayScorePrediction hs aw
          rules))
      p.groupId p.userId = some r := h
  dsimp only
  rw [h2]
  rfl

/-! ## Claim theorems: ranking propagator -/

/-- C5: when the match record's status is not `"finished"`, or either actual
score is unset, `calculatePointsForMatch` fails with a 400 `BAD_REQUEST`
error and the database state is unchanged: no prediction, member aggregate
or ranking row is written. -/
theorem finalize_precondition_error_no_writes :
    ∀ (d : DB) (matchId : Nat) (m : Match),
      d.matchRows.find? (fun x => x.id = matchId) = some m →
      (m.status ≠ "finished" ∨ m.homeScore = none ∨ m.awayScore = none) →
      (∃ e : AppError, calculatePointsForMatch d matchId = Except.error e
          ∧ e.status = 400 ∧ e.code = "BAD_REQUEST")
      ∧ runFinalize d matchId = d := by
  intro d matchId m hm hbad
  have key : calculatePointsForMatch d matchId
        = Except.error ⟨400, "BAD_REQUEST", "Match is not finished"⟩
      ∨ calculatePointsForMatch d matchId
        = Except.error ⟨400, "BAD_REQUEST", "Match scores are not set"⟩ := by
    simp only [calculatePointsForMatch, hm]
    by_cases hs : m.status = "finished"
    · have hs' : ¬(m.status ≠ "finished") := by simp [hs]
      rw [if_neg hs']
      cases hh : m.homeScore with
      | none => cases haw : m.awayScore <;> simp
      | some a =>
        cases haw : m.awayScore with
        | none => simp
        | some b =>
          exfalso
          rcases hbad with h | h | h
          · exact absurd hs h
          · rw [hh] at h; cases h
          · rw [haw] at h; cases h
    · rw [if_pos hs]
      left
      rfl
  constructor
  · rcases key with k | k
    · exact ⟨_, k, rfl, rfl⟩
    · exact ⟨_, k, rfl, rfl⟩
  · rcases key with k | k <;> simp [runFinalize, k]

/-- Witness for C5: a live match with unset scores is rejected and the
state is untouched. -/
theorem finalize_precondition_witness :
    (∃ e : AppError, calculatePointsForMatch dbLiveMatch 1 = Except.error e
        ∧ e.status = 400 ∧ e.code = "BAD_REQUEST")
    ∧ runFinalize dbLiveMatch 1 = dbLiveMatch :=
  finalize_precondition_error_no_writes dbLiveMatch 1 ⟨1, "live", none, none⟩
    (by decide) (Or.inl (by decide))

/-- C7 counterexample: the success result of `calculatePointsForMatch` does
not carry the number of predictions scored. Two databases in which the
match has 1 and 2 predictions produce the identical result value (the
constant message `"Points calculated successfully"`), so no component of the
result equals a `predictionsScored` count. -/
theorem finalize_result_carries_no_count :
    finalizeMsg dbOnePrediction 1 = finalizeMsg dbTwoPredictions 1
    ∧ scoredCount dbOnePrediction 1 = 1
    ∧ scoredCount dbTwoPredictions 1 = 2
    ∧ finalizeOk dbOnePrediction 1 = true
    ∧ finalizeOk dbTwoPredictions 1 = true := by
  decide

/-- C7 amended: on success `calculatePointsForMatch` returns the fixed
message `{ message: "Points calculated successfully" }`; the count of scored
predictions is not part of the result. -/
theorem finalize_success_message :
    ∀ (d : DB) (matchId : Nat) (res : DB × String),
      calculatePointsForMatch d matchId = Except.ok res →
      res.2 = "Points calculated successfully" := by
  intro d matchId res h
  unfold calculatePointsForMatch at h
  split at h
  · exact Except.noConfusion h
  · split at h
    · exact Except.noConfusion h
    · split at h
      · cases h
        rfl
      · exact Except.noConfusion h

/-- Witness for C7 (amended): the constant message at a concrete success. -/
theorem finalize_success_message_witness :
    finalizeMsg dbOnePrediction 1 = some "Points calculated successfully" := by
  rcases hcalc : calculatePointsForMatch dbOnePrediction 1 with e | res
  · exfalso
    have hok : finalizeOk dbOnePrediction 1 = true := by decide
    unfold finalizeOk at hok
    rw [hcalc] at hok
    exact Bool.noConfusion hok
  · have hmsg := finalize_success_message dbOnePrediction 1 res hcalc
    unfold finalizeMsg
    rw [hcalc]
    show some res.2 = some "Points calculated successfully"
    rw [hmsg]

/-- C2 counterexample: finalization is not idempotent in net effect. On a
database with one finished 1–0 match and one exact prediction, the first
call leaves the member's `totalPoints` at 5 but a second call on the same,
already-finalized match raises it to 10: the totals after the repeated call
differ from the totals before it. -/
theorem finalize_not_idempotent :
    memberTotals (runFinalize dbOnePrediction 1) = [5]
    ∧ memberTotals (runFinalize (runFinalize dbOnePrediction 1) 1) = [10]
    ∧ memberTotals (runFinalize (runFinalize dbOnePrediction 1) 1)
        ≠ memberTotals (runFinalize dbOnePrediction 1) := by
  decide

/-- C2 amended: `calculatePointsForMatch` has no idempotency guard — a
second invocation for an already-finalized match re-applies every
per-prediction increment, doubling member `totalPoints` and ranking
`totalPoints` (5 to 10 in the example) and incrementing
`totalPredictions` again (1 to 2), while `pointsEarned`, which is
overwritten rather than incremented, keeps its value. -/
theorem finalize_second_call_double_awards :
    memberTotals (runFinalize dbOnePrediction 1) = [5]
    ∧ rankTotals (runFinalize dbOnePrediction 1) = [5]
    ∧ rankPredCounts (runFinalize dbOnePrediction 1) = [1]
    ∧ predictionPoints (runFinalize dbOnePrediction 1) = [some 5]
    ∧ memberTotals (runFinalize (runFinalize dbOnePrediction 1) 1) = [10]
    ∧ rankTotals (runFinalize (runFinalize dbOnePrediction 1) 1) = [10]
    ∧ rankPredCounts (runFinalize (runFinalize dbOnePrediction 1) 1) = [2]
    ∧ predictionPoints (runFinalize (runFinalize dbOnePrediction 1) 1)
        = [some 5] := by
  decide

/-- C4: per scored prediction, the member aggregate is incremented by the
computed points (additive, never overwritten), and the `(group, user)`
ranking row is upserted — created with `totalPoints = points`,
`totalPredictions = 1`, `correctPredictions = (1 if points > 0 else 0)` when
absent, or incremented analogously when present. End to end, a user whose
two scored predictions earn 5 and 3 points in the same group ends with
member `totalPoints = 8`, ranking `totalPoints = 8` and
`correctPredictions = 2`. -/
theorem member_and_ranking_upsert_additive :
    (∀ (d : DB) (p : Prediction) (rules : List ScoringRule) (hs aw : Int)
        (mem : GroupMember),
        mem ∈ d.members → mem.groupId = p.groupId → mem.userId = p.userId →
        ({ mem with
           totalPoints := mem.totalPoints + calculatePoints
             p.homeScorePrediction p.awayScorePrediction hs aw rules } :
          GroupMember)
          ∈ (scorePrediction d p rules hs aw).members)
    ∧ (∀ (d : DB) (p : Prediction) (rules : List ScoringRule) (hs aw : Int),
        rankingFor d p.groupId p.userId = none →
        (scorePrediction d p rules hs aw).rankings
          = d.rankings ++
              [{ id := d.nextRankingId, groupId := p.groupId,
                 userId := p.userId,
                 totalPoints := calculatePoints p.homeScorePrediction
                   p.awayScorePrediction hs aw rules,
                 totalPredictions := 1,
                 correctPredictions :=
                   if 0 < calculatePoints p.homeScorePrediction
                       p.awayScorePrediction hs aw rules then 1 else 0,
                 rank := none, previousRank := none }])
    ∧ (∀ (d : DB) (p : Prediction) (rules : List ScoringRule) (hs aw : Int)
        (r : GroupRanking),
        rankingFor d p.groupId p.userId = some r →
        ({ r with
           totalPoints := r.totalPoints + calculatePoints
             p.homeScorePrediction p.awayScorePrediction hs aw rules,
           totalPredictions := r.totalPredictions + 1,
           correctPredictions :=
             if 0 < calculatePoints p.homeScorePrediction
                 p.awayScorePrediction hs aw rules then
               r.correctPredictions + 1
             else r.correctPredictions } : GroupRanking)
          ∈ (scorePrediction d p rules hs aw).rankings)
    ∧ memberTotals (runFinalize (runFinalize dbTwoMatches 1) 2) = [8]
    ∧ rankTotals (runFinalize (runFinalize dbTwoMatches 1) 2) = [8]
    ∧ rankCorrectCounts (runFinalize (runFinalize dbTwoMatches 1) 2) = [2]
    ∧ rankPredCounts (runFinalize (runFinalize dbTwoMatches 1) 2) = [2] := by
  refine ⟨?_, ?_, ?_, by decide, by decide, by decide, by decide⟩
  · intro d p rules hs aw mem hmem h1 h2
    rw [scorePrediction_members]
    have hmap := List.mem_map_of_mem (fun mem : GroupMember =>
      if mem.groupId = p.groupId ∧ mem.userId = p.userId then
        { mem with
          totalPoints := mem.totalPoints + calculatePoints
            p.homeScorePrediction p.awayScorePrediction hs aw rules }
      else mem) hmem
    simpa [h1, h2] using hmap
  · intro d p rules hs aw h
    exact scorePrediction_rankings_create d p rules hs aw h
  · intro d p rules hs aw r h
    rw [scorePrediction_rankings_update d p rules hs aw r h]
    have hr : r ∈ d.rankings := List.mem_of_find?_eq_some h
    have hmap := List.mem_map_of_mem (fun q : GroupRanking =>
      if q.id = r.id then
        { q with
          totalPoints := q.totalPoints + calculatePoints
            p.homeScorePrediction p.awayScorePrediction hs aw rules,
          totalPredictions := q.totalPredictions + 1,
          correctPredictions :=
            if 0 < calculatePoints p.homeScorePrediction
                p.awayScorePrediction hs aw rules then
              q.correctPredictions + 1
            else q.correctPredictions }
      else q) hr
    simpa using hmap

/-- Witness for C4: the incremented member row at a concrete scoring step. -/
theorem member_upsert_witness :
    ({ groupId := 1, userId := 1,
       totalPoints := 0 + calculatePoints 1 0 1 0 [] } : GroupMember)
      ∈ (scorePrediction dbOnePrediction ⟨1, 1, 1, 1, 1, 0, none⟩ [] 1
          0).members :=
  member_and_ranking_upsert_additive.1 dbOnePrediction ⟨1, 1, 1, 1, 1, 0, none⟩
    [] 1 0 ⟨1, 1, 0⟩ (by decide) rfl rfl

/-- C10: a user's first scored prediction in a group creates the ranking row
with `rank` and `previousRank` unset; the recomputation that follows stores
the prior (unset) `rank` into `previousRank`, so after the first
finalization touching a `(group, user)` pair the row has
`previousRank = none`, and `previousRank` becomes a number only after a
second recomputation for that group. -/
theorem first_scored_prediction_ranking_row :
    (∀ (d : DB) (p : Prediction) (rules : List ScoringRule) (hs aw : Int),
        rankingFor d p.groupId p.userId = none →
        ∃ q : GroupRanking,
          q ∈ (scorePrediction d p rules hs aw).rankings
          ∧ q.groupId = p.groupId ∧ q.userId = p.userId
          ∧ q.rank = none ∧ q.previousRank = none)
    ∧ rankValues (runFinalize dbOnePrediction 1) = [some 1]
    ∧ rankPrevValues (runFinalize dbOnePrediction 1) = [none]
    ∧ rankValues (updateGroupRankings (runFinalize dbOnePrediction 1) 1)
        = [some 1]
    ∧ rankPrevValues (updateGroupRankings (runFinalize dbOnePrediction 1) 1)
        = [some 1] := by
  refine ⟨?_, by decide, by decide, by decide, by decide⟩
  intro d p rules hs aw h
  refine ⟨{ id := d.nextRankingId, groupId := p.groupId, userId := p.userId,
            totalPoints := calculatePoints p.homeScorePrediction
              p.awayScorePrediction hs aw rules,
            totalPredictions := 1,
            correctPredictions :=
              if 0 < calculatePoints p.homeScorePrediction
                  p.awayScorePrediction hs aw rules then 1 else 0,
            rank := none, previousRank := none },
         ?_, rfl, rfl, rfl, rfl⟩
  rw [scorePrediction_rankings_create d p rules hs aw h]
  simp

/-- Witness for C10: the freshly created, unranked row at a concrete step. -/
theorem first_scored_prediction_witness :
    ∃ q : GroupRanking,
      q ∈ (scorePrediction dbOnePrediction ⟨1, 1, 1, 1, 1, 0, none⟩ [] 1
            0).rankings
      ∧ q.groupId = 1 ∧ q.userId = 1 ∧ q.rank = none ∧ q.previousRank = none :=
  first_scored_prediction_ranking_row.1 dbOnePrediction ⟨1, 1, 1, 1, 1, 0, none⟩
    [] 1 0 (by decide)

end FrozenBet
